import Mathlib

/-!
Verification development for the `recursive_crawler` web crawler
(`src/code/crawler/recursive_crawler.py`).

The crawler is embedded shallowly:

* HTML documents are trees (`Node`), and the parser collaborator's queries
  (`find`, `find_all`, `.text`, `get_text(strip=True)`, attribute access)
  are Lean functions on those trees;
* Python string operations used by the source (`strip`, `startswith`,
  `split`, `replace`, `title`, regular-expression substitutions) are
  modelled character-list functions (`pyStrip`, `pyStartswith`, ...) over
  the ASCII forms the source exercises;
* the HTTP transport and the filesystem are an explicit environment
  (`Env`): `fetch` returns `none` when the request or the parse raises,
  otherwise a status code and a parsed document; `writeFails` says whether
  the file write raises;
* side effects become explicit outputs: `process_page` reports the updated
  visited set, the child links, the list of URLs it fetched and the file it
  wrote (if any); the crawl loop (`crawl_step` / `crawl_run`) threads the
  state and accumulates the fetch log.

Function names follow the Python source (`clean_filename`,
`has_significant_text`, `extract_page_content`, `save_content_to_file`,
`extract_links`, `process_page`, `crawl_step` for one iteration of
`recursive_crawl`'s loop, `main_run` for `main`).
-/

/-- Whitespace characters stripped by Python's `str.strip()` and matched by
the regex class `\s` (ASCII range: space, tab, newline, carriage return,
vertical tab, form feed). -/
def isPySpace (c : Char) : Bool :=
  c = ' ' ∨ c = '\t' ∨ c = '\n' ∨ c = '\r' ∨ c.toNat = 11 ∨ c.toNat = 12

/-- Python `str.strip()`: drop leading and trailing whitespace. -/
def pyStrip (s : String) : String :=
  ⟨((s.data.dropWhile isPySpace).reverse.dropWhile isPySpace).reverse⟩

/-- Python `s.startswith(pre)`. -/
def pyStartswith (s pre : String) : Bool :=
  pre.data.isPrefixOf s.data

/-- Split a character list at the first occurrence of the separator
sequence `sep`; `none` when `sep` does not occur. -/
def splitFirst (sep : List Char) : List Char → Option (List Char × List Char)
  | [] => none
  | c :: rest =>
    if sep.isPrefixOf (c :: rest) then some ([], (c :: rest).drop sep.length)
    else
      match splitFirst sep rest with
      | some (pre, post) => some (c :: pre, post)
      | none => none

/-- True when the string contains a URL scheme separator "://". -/
def hasSchemeSep (s : String) : Bool :=
  (splitFirst "://".data s.data).isSome

/-- Origin of an absolute URL in the standard sense: scheme and authority,
i.e. everything up to (excluding) the first '/' after "://". Used to state
the spec's phrase "shares the configured base origin". -/
def urlOrigin (url : String) : String :=
  match splitFirst "://".data url.data with
  | none => url
  | some (scheme, rest) => ⟨scheme ++ "://".data ++ rest.takeWhile (fun c => c ≠ '/')⟩

/-- Directory part of a URL: everything up to and including the last '/'
(after the scheme separator); the whole URL plus '/' when the path has no
'/'. Helper for `urljoinModel`. -/
def urlDirOf (url : String) : String :=
  match splitFirst "://".data url.data with
  | none => url
  | some (scheme, rest) =>
    let path := rest.dropWhile (fun c => c ≠ '/')
    let host := rest.takeWhile (fun c => c ≠ '/')
    let dir := (path.reverse.dropWhile (fun c => c ≠ '/')).reverse
    ⟨scheme ++ "://".data ++ host ++ (if dir = [] then ['/'] else dir)⟩

/-- Modelled collaborator `urllib.parse.urljoin`, restricted to the
reference forms the crawler exercises: an absolute reference (one
containing "://") is returned unchanged; a root-relative reference
(starting with '/') is resolved against the base URL's origin; any other
reference is resolved against the base URL's directory. -/
def urljoinModel (base href : String) : String :=
  if hasSchemeSep href then href
  else if pyStartswith href "/" then urlOrigin base ++ href
  else urlDirOf base ++ href

/-- Python `str.split()` with no argument: split on runs of whitespace,
dropping empty pieces. -/
def pySplitWsAux : List Char → List Char → List String
  | acc, [] => if acc = [] then [] else [⟨acc.reverse⟩]
  | acc, c :: rest =>
    if isPySpace c then
      if acc = [] then pySplitWsAux [] rest
      else ⟨acc.reverse⟩ :: pySplitWsAux [] rest
    else pySplitWsAux (c :: acc) rest

/-- Python `s.split('/')`: split on every '/', keeping empty pieces; the
result is always non-empty. -/
def pySplitSlashAux : List Char → List Char → List String
  | acc, [] => [⟨acc.reverse⟩]
  | acc, c :: rest =>
    if c = '/' then ⟨acc.reverse⟩ :: pySplitSlashAux [] rest
    else pySplitSlashAux (c :: acc) rest

/-- Python `url.split('/')[-1]`: the final path segment. -/
def lastPathSegment (url : String) : String :=
  (pySplitSlashAux [] url.data).getLastD ""

/-- Python `s.replace('-', ' ')`. -/
def pyReplaceDashSpace (s : String) : String :=
  ⟨s.data.map (fun c => if c = '-' then ' ' else c)⟩

/-- Python `str.title()` on ASCII text: an alphabetic character is
uppercased when the previous character is not alphabetic, lowercased
otherwise. -/
def pyTitleAux : Bool → List Char → List Char
  | _, [] => []
  | prevCased, c :: rest =>
    (if c.isAlpha then (if prevCased then c.toLower else c.toUpper) else c)
      :: pyTitleAux c.isAlpha rest

/-- Python `str.title()`. -/
def pyTitle (s : String) : String :=
  ⟨pyTitleAux false s.data⟩

/-!
HTML document model: the parser collaborator (BeautifulSoup) exposes a tree
of elements and text; a parsed document ("soup") is the forest of its
top-level nodes. `find` / `find_all` on the soup or on an element search
the descendants in document (pre-) order.
-/

/-- One node of a parsed HTML document: a text node, or an element with a
tag name, attributes, and children. -/
inductive Node where
  | text : String → Node
  | elem : String → List (String × String) → List Node → Node

/-- Attribute lookup on an element's attribute list (first match). -/
def getAttr (attrs : List (String × String)) (key : String) : Option String :=
  match attrs with
  | [] => none
  | (k, v) :: rest => if k = key then some v else getAttr rest key

/-- Children of a node (empty for a text node). -/
def childrenOf : Node → List Node
  | .text _ => []
  | .elem _ _ cs => cs

/-- Attributes of a node (empty for a text node). -/
def attrsOf : Node → List (String × String)
  | .text _ => []
  | .elem _ attrs _ => attrs

mutual
/-- All elements of the subtree rooted at a node (the node itself
included) matching a predicate on tag and attributes, in pre-order. -/
def subFindAll (pred : String → List (String × String) → Bool) : Node → List Node
  | .text _ => []
  | .elem t a cs =>
    (if pred t a then [Node.elem t a cs] else []) ++ forestFindAll pred cs
/-- All matching elements of a forest, in pre-order. `find_all` on the
soup is `forestFindAll` over its top-level nodes; `find_all` on an element
is `forestFindAll` over its children (descendants only). -/
def forestFindAll (pred : String → List (String × String) → Bool) : List Node → List Node
  | [] => []
  | n :: ns => subFindAll pred n ++ forestFindAll pred ns
end

/-- BeautifulSoup `element.find(...)`: first matching descendant. -/
def nodeFind (pred : String → List (String × String) → Bool) (n : Node) : Option Node :=
  (forestFindAll pred (childrenOf n)).head?

/-- BeautifulSoup `soup.find(...)`: first matching element of the document. -/
def soupFind (pred : String → List (String × String) → Bool) (soup : List Node) : Option Node :=
  (forestFindAll pred soup).head?

mutual
/-- BeautifulSoup `.text`: concatenation of all descendant strings. -/
def nodeText : Node → String
  | .text s => s
  | .elem _ _ cs => forestText cs
/-- Concatenated text of a forest. -/
def forestText : List Node → String
  | [] => ""
  | n :: ns => nodeText n ++ forestText ns
end

mutual
/-- BeautifulSoup `.get_text(strip=True)`: concatenation of all descendant
strings, each stripped. -/
def getTextStrip : Node → String
  | .text s => pyStrip s
  | .elem _ _ cs => forestTextStrip cs
/-- Stripped concatenated text of a forest. -/
def forestTextStrip : List Node → String
  | [] => ""
  | n :: ns => getTextStrip n ++ forestTextStrip ns
end

/-- Tag predicate for `find_all('p')`. -/
def isParagraph (t : String) (_ : List (String × String)) : Bool := t = "p"

/-- Tag predicate for `find('a')`. -/
def isAnchor (t : String) (_ : List (String × String)) : Bool := t = "a"

/-- Tag predicate for `find_all('a', href=True)`. -/
def isAnchorWithHref (t : String) (a : List (String × String)) : Bool :=
  t = "a" && (getAttr a "href").isSome

/-- Tag predicate for `find('h1')`. -/
def isH1 (t : String) (_ : List (String × String)) : Bool := t = "h1"

/-- Tag predicate for `soup.title`, i.e. the first `title` element. -/
def isTitleTag (t : String) (_ : List (String × String)) : Bool := t = "title"

/-- Id of the main-content region the crawler targets. -/
def mainContentId : String := "block-eco-omega-system-main"

/-- Predicate for `soup.find('div', id='block-eco-omega-system-main')`. -/
def isTargetDiv (t : String) (a : List (String × String)) : Bool :=
  t = "div" && getAttr a "id" = some mainContentId

/-- The crawler's target main-content div, when present. -/
def findTargetDiv (soup : List Node) : Option Node :=
  soupFind isTargetDiv soup

/-- Predicate for `soup.find('div', class_='content')`: BeautifulSoup
matches `class_` against any of the whitespace-separated class tokens. -/
def isDivClassContent (t : String) (a : List (String × String)) : Bool :=
  t = "div" &&
    (match getAttr a "class" with
     | none => false
     | some v => "content" ∈ pySplitWsAux [] v.data)

/-- Tag predicate for `find('article')`. -/
def isArticle (t : String) (_ : List (String × String)) : Bool := t = "article"

/-!
The crawler's configuration (module-level constants of the source).
-/

/-- Configured base URL (`base_url = 'https://www.gov.za'`). -/
def base_url : String := "https://www.gov.za"

/-- Root URL seeding the crawl queue. -/
def seed_url : String := "https://www.gov.za/services-residents"

/-!
Filename Sanitizer (`clean_filename`).
-/

/-- Characters removed by `re.sub(r'[\\/*?:"<>|]', "", text)`. -/
def isInvalidFileChar (c : Char) : Bool :=
  c = '\\' ∨ c = '/' ∨ c = '*' ∨ c = '?' ∨ c = ':' ∨ c = '"' ∨ c = '<' ∨ c = '>' ∨ c = '|'

/-- Character class of `re.sub(r'[\s-]+', "_", ...)`: whitespace or dash. -/
def isSpaceOrDash (c : Char) : Bool :=
  isPySpace c ∨ c = '-'

/-- Replace every maximal run of whitespace-or-dash characters by a single
underscore, as `re.sub(r'[\s-]+', "_", filename)` does; the flag records
whether the previous character belonged to such a run. -/
def collapseRuns : Bool → List Char → List Char
  | _, [] => []
  | inRun, c :: rest =>
    if isSpaceOrDash c then
      if inRun then collapseRuns true rest
      else '_' :: collapseRuns true rest
    else c :: collapseRuns false rest

/-- Stem of `clean_filename`: the filename before ".txt" is appended
(invalid characters removed, whitespace-and-dash runs collapsed,
truncated to 100 characters). -/
def stemOf (text : String) : List Char :=
  let filename := text.data.filter (fun c => ¬ isInvalidFileChar c)
  let filename := collapseRuns false filename
  if filename.length > 100 then filename.take 100 else filename

/-- Python `clean_filename`: sanitize a title into a file name. -/
def clean_filename (text : String) : String :=
  ⟨stemOf text⟩ ++ ".txt"

/-!
Content Classifier (`has_significant_text`).
-/

/-- The filter of `has_significant_text`'s list comprehension: a paragraph
counts when its stripped text is non-empty and it either has no anchor
descendant or its (untrimmed) text is more than 10 characters longer than
its first anchor's (untrimmed) text. -/
def isSubstantial (p : Node) : Bool :=
  pyStrip (nodeText p) ≠ "" &&
    (match nodeFind isAnchor p with
     | none => true
     | some a => (nodeText a).length + 10 < (nodeText p).length)

/-- The `content_paragraphs` list of `has_significant_text`: paragraphs of
the target div (of the whole document when the div is absent) passing the
`isSubstantial` filter. -/
def content_paragraphs (soup : List Node) : List Node :=
  let paragraphs :=
    match findTargetDiv soup with
    | none => forestFindAll isParagraph soup
    | some target_div => forestFindAll isParagraph (childrenOf target_div)
  paragraphs.filter isSubstantial

/-- Python `has_significant_text`: at least 2 substantial paragraphs whose
text lengths sum to more than 150. -/
def has_significant_text (soup : List Node) : Bool :=
  let cps := content_paragraphs soup
  decide (2 ≤ cps.length) && decide (150 < (cps.map (fun p => (nodeText p).length)).sum)

/-!
Content Extractor (`extract_page_content`).
-/

/-- Python `extract_page_content`: title and concatenated paragraph body of
a page. The main container is the target div, else a `div` with class
`content`, else an `article`, else the whole document; the result of each
`find` is represented by the forest of nodes searched below it. -/
def extract_page_content (soup : List Node) (url : String) : String × String :=
  let main_content :=
    match findTargetDiv soup with
    | some d => childrenOf d
    | none =>
      match soupFind isDivClassContent soup with
      | some d => childrenOf d
      | none =>
        match soupFind isArticle soup with
        | some d => childrenOf d
        | none => soup
  let title_tag :=
    match (forestFindAll isH1 main_content).head? with
    | some t => some t
    | none =>
      match soupFind isH1 soup with
      | some t => some t
      | none => soupFind isTitleTag soup
  let title :=
    match title_tag with
    | some t => getTextStrip t
    | none => pyTitle (pyReplaceDashSpace (lastPathSegment url))
  let paragraphs := forestFindAll isParagraph main_content
  let content :=
    String.intercalate "\n\n" ((paragraphs.map getTextStrip).filter (fun s => s ≠ ""))
  (title, content)

/-!
Saving (`save_content_to_file`). The write becomes an explicit output:
`none` means no file was written (the blank-content skip, where the Python
returns `False` before opening the file); `some (path, text)` means the
file at `path` was written with contents `text` (the Python returns
`True`).
-/

/-- Python `save_content_to_file`. `now` is the `time.strftime` timestamp. -/
def save_content_to_file (title content url now : String) : Option (String × String) :=
  if pyStrip content = "" then none
  else
    let filename := clean_filename title
    let filepath := "scraped_content/" ++ filename
    some (filepath,
      "Title: " ++ title ++ "\n" ++
      "Source URL: " ++ url ++ "\n" ++
      "Date scraped: " ++ now ++ "\n" ++
      "\n" ++ ⟨List.replicate 50 '='⟩ ++ "\n\n" ++
      content)

/-!
Link Extractor (`extract_links`). The URL-resolution collaborator
(`urllib.parse.urljoin`) is passed explicitly so properties independent of
its exact behaviour can be stated for every resolver; the crawler itself
uses `urljoinModel`.
-/

/-- Body of `extract_links`' loop over `target_div.find_all('a', href=True)`:
skip fragment, script and mail references, resolve the reference, and keep
the result only when it starts with `base_url`. -/
def link_step (urljoin : String → String → String) (current_url : String)
    (links : List String) (a_tag : Node) : List String :=
  match getAttr (attrsOf a_tag) "href" with
  | none => links
  | some href =>
    if pyStartswith href "#" ∨ pyStartswith href "javascript:" ∨ pyStartswith href "mailto:" then
      links
    else
      let full_url := urljoin current_url href
      if pyStartswith full_url base_url then links ++ [full_url] else links

/-- Python `extract_links`: absolute same-prefix links of the target div,
in document order; empty when the target div is absent. -/
def extract_links (urljoin : String → String → String)
    (soup : List Node) (current_url : String) : List String :=
  match findTargetDiv soup with
  | none => []
  | some target_div =>
    (forestFindAll isAnchorWithHref (childrenOf target_div)).foldl
      (link_step urljoin current_url) []

/-!
Page Processor (`process_page`) and Crawl Loop (`recursive_crawl`).
The transport and filesystem collaborators are an explicit environment.
-/

/-- Environment of one crawl: `fetch url` is `none` when `session.get` or
the parse raises, otherwise the status code and the parsed document;
`writeFails url` says whether the file write for that URL raises (the
exception is caught by `process_page`'s handler); `now` is the wall-clock
timestamp string used when saving. -/
structure Env where
  fetch : String → Option (Nat × List Node)
  writeFails : String → Bool
  now : String

/-- Observable outcome of one `process_page` call: the visited set after the
call, the returned child links, the URLs fetched during the call, and the
file written (if any). -/
structure ProcResult where
  visited : List String
  children : List String
  fetched : List String
  saved : Option (String × String)

/-- Python `process_page`: skip already-visited URLs, otherwise mark the URL
visited, fetch it, and either save it as a content page (returning no
children) or return its extracted links; every failure path returns no
children. -/
def process_page (env : Env) (visited_urls : List String) (url : String) : ProcResult :=
  if url ∈ visited_urls then
    { visited := visited_urls, children := [], fetched := [], saved := none }
  else
    let visited_urls := url :: visited_urls
    match env.fetch url with
    | none =>
      { visited := visited_urls, children := [], fetched := [url], saved := none }
    | some (status, soup) =>
      if status ≠ 200 then
        { visited := visited_urls, children := [], fetched := [url], saved := none }
      else if has_significant_text soup then
        let tc := extract_page_content soup url
        let saved :=
          if env.writeFails url then none
          else save_content_to_file tc.1 tc.2 url env.now
        { visited := visited_urls, children := [], fetched := [url], saved := saved }
      else
        { visited := visited_urls, children := extract_links urljoinModel soup url,
          fetched := [url], saved := none }

/-- The enqueue loop of `recursive_crawl`: append each child link to the
queue unless it is already visited or already queued (the check sees the
queue as it grows). -/
def enqueue_links (visited_urls url_queue child_links : List String) : List String :=
  child_links.foldl
    (fun q link => if link ∈ visited_urls ∨ link ∈ q then q else q ++ [link])
    url_queue

/-- State of the crawl loop: the visited set and the frontier queue. -/
structure CrawlState where
  visited : List String
  queue : List String

/-- Initial crawl state: nothing visited, the queue seeded with the root. -/
def initState : CrawlState :=
  { visited := [], queue := [seed_url] }

/-- One iteration of `recursive_crawl`'s loop: pop the head of the queue,
process it, enqueue the new links; a no-op on an empty queue. The second
component is the list of URLs fetched during the iteration. -/
def crawl_step (env : Env) (s : CrawlState) : CrawlState × List String :=
  match s.queue with
  | [] => (s, [])
  | current_url :: rest =>
    let r := process_page env s.visited current_url
    ({ visited := r.visited, queue := enqueue_links r.visited rest r.children }, r.fetched)

/-- Run `n` iterations of the crawl loop from the initial state,
accumulating the fetch log. -/
def crawl_run (env : Env) : Nat → CrawlState × List String
  | 0 => (initState, [])
  | n + 1 =>
    let p := crawl_run env n
    let q := crawl_step env p.1
    (q.1, p.2 ++ q.2)

/-!
Process entry point (`main`). The outcome of `recursive_crawl` is an input:
it either completes (with a final visited count), is interrupted by the
user (`KeyboardInterrupt`), or raises some other exception with a message.
`main_run` returns the lines printed and the process exit status; every
handler of `main` returns normally, so the interpreter exits with status 0
in all three cases.
-/

/-- How the call to `recursive_crawl` inside `main`'s `try` block ends. -/
inductive CrawlOutcome where
  | completed (visitedCount : Nat)
  | interrupted
  | failed (msg : String)

/-- Lines `main` prints before starting the crawl; `absdir` is the absolute
path of the `scraped_content` directory. -/
def startupLines (absdir : String) : List String :=
  ["Starting web crawl of South African government services...",
   "Content will be saved to: " ++ absdir]

/-- Python `main`, as (printed lines, process exit status). -/
def main_run (absdir : String) : CrawlOutcome → List String × Nat
  | .completed n =>
    (startupLines absdir ++ ["Crawl completed. Processed " ++ toString n ++ " URLs."], 0)
  | .interrupted =>
    (startupLines absdir ++ ["\nCrawl interrupted by user."], 0)
  | .failed e =>
    (startupLines absdir ++ ["Crawl failed with error: " ++ e], 0)

/-!
Concrete fixtures used by the witnesses, counterexamples and concrete
halves of the claims.
-/

/-- A link-free paragraph of exactly 80 characters. -/
def para80 : Node :=
  .elem "p" [] [.text ⟨List.replicate 80 'a'⟩]

/-- A page whose main-content div holds two 80-character link-free
paragraphs. -/
def soupTwoParas : List Node :=
  [.elem "div" [("id", mainContentId)] [para80, para80]]

/-- A page whose main-content div holds one 80-character link-free
paragraph. -/
def soupOnePara : List Node :=
  [.elem "div" [("id", mainContentId)] [para80]]

/-- A paragraph consisting solely of an anchor captioned "Read more". -/
def readMorePara : Node :=
  .elem "p" [] [.elem "a" [("href", "/x")] [.text "Read more"]]

/-- The anchor inside `readMorePara`. -/
def readMoreAnchor : Node :=
  .elem "a" [("href", "/x")] [.text "Read more"]

/-- First anchor of `paraTwoAnchors`: 2 characters of text. -/
def shortAnchor : Node :=
  .elem "a" [("href", "/a")] [.text "ab"]

/-- Second anchor of `paraTwoAnchors`: 50 characters of text. -/
def longAnchor : Node :=
  .elem "a" [("href", "/b")] [.text ⟨List.replicate 50 'z'⟩]

/-- A paragraph of 53 characters of text, 50 of which are the text of its
second anchor. -/
def paraTwoAnchors : Node :=
  .elem "p" [] [shortAnchor, .text "x", longAnchor]

/-- Anchor of `paraTrailingSpace`: 10 characters of text. -/
def tenCharAnchor : Node :=
  .elem "a" [("href", "/a")] [.text "0123456789"]

/-- A paragraph whose untrimmed text (21 characters) exceeds its anchor's
by 11 only because of trailing whitespace. -/
def paraTrailingSpace : Node :=
  .elem "p" [] [tenCharAnchor, .text ⟨List.replicate 11 ' '⟩]

/-- A page whose main-content div links to a URL on a foreign origin whose
text nevertheless starts with `base_url`. -/
def soupEvilLink : List Node :=
  [.elem "div" [("id", mainContentId)]
    [.elem "a" [("href", "https://www.gov.za.evil/x")] [.text "link"]]]

/-- An environment in which every fetch raises. -/
def testEnv : Env :=
  { fetch := fun _ => none, writeFails := fun _ => false, now := "2026-01-01 00:00:00" }

/-- An environment in which every fetch succeeds with the two-paragraph
content page. -/
def contentEnv : Env :=
  { fetch := fun _ => some (200, soupTwoParas), writeFails := fun _ => false,
    now := "2026-01-01 00:00:00" }

/-!
Helper lemmas about `process_page`, `enqueue_links` and the crawl loop.
-/

/-- A URL already in the visited set makes `process_page` a no-op. -/
theorem process_page_mem (env : Env) (v : List String) (u : String) (h : u ∈ v) :
    process_page env v u = { visited := v, children := [], fetched := [], saved := none } := by
  simp [process_page, h]

/-- An unvisited URL is added to the visited set and fetched exactly once. -/
theorem process_page_not_mem_spec (env : Env) (v : List String) (u : String) (h : u ∉ v) :
    (process_page env v u).visited = u :: v ∧ (process_page env v u).fetched = [u] := by
  simp only [process_page, h, if_false, ite_false]
  cases hf : env.fetch u with
  | none => exact ⟨rfl, rfl⟩
  | some p =>
    obtain ⟨status, soup⟩ := p
    by_cases h2 : status = 200 <;> by_cases h3 : has_significant_text soup <;>
      simp [h2, h3]

/-- Enqueuing child links preserves a duplicate-free queue disjoint from the
visited set, because each link is admitted only when absent from both. -/
theorem enqueue_links_inv (v : List String) (links : List String) :
    ∀ q : List String, q.Nodup → (∀ x ∈ q, x ∉ v) →
      (enqueue_links v q links).Nodup ∧ ∀ x ∈ enqueue_links v q links, x ∉ v := by
  induction links with
  | nil => intro q h1 h2; exact ⟨h1, h2⟩
  | cons l ls ih =>
    intro q h1 h2
    have step : enqueue_links v q (l :: ls)
        = enqueue_links v (if l ∈ v ∨ l ∈ q then q else q ++ [l]) ls := rfl
    rw [step]
    by_cases hl : l ∈ v ∨ l ∈ q
    · rw [if_pos hl]; exact ih q h1 h2
    · rw [if_neg hl]
      push_neg at hl
      refine ih _ ?_ ?_
      · simp [List.nodup_append, h1, hl.2]
      · intro x hx
        rcases List.mem_append.1 hx with hx | hx
        · exact h2 x hx
        · rw [List.mem_singleton] at hx; subst hx; exact hl.1

/-- Invariant of the crawl state: the queue has no duplicates and is
disjoint from the visited set. -/
def StateInv (s : CrawlState) : Prop :=
  s.queue.Nodup ∧ ∀ u ∈ s.queue, u ∉ s.visited

/-- One crawl iteration preserves the state invariant; the URLs it fetches
are new (not previously visited) and visited afterwards; the visited set
only grows; and at most one URL is fetched. -/
theorem crawl_step_inv (env : Env) (s : CrawlState) (hs : StateInv s) :
    StateInv (crawl_step env s).1 ∧
    (∀ x ∈ (crawl_step env s).2, x ∉ s.visited ∧ x ∈ (crawl_step env s).1.visited) ∧
    (∀ x ∈ s.visited, x ∈ (crawl_step env s).1.visited) ∧
    ((crawl_step env s).2).Nodup := by
  obtain ⟨hnd, hdisj⟩ := hs
  cases hq : s.queue with
  | nil =>
    refine ⟨⟨?_, ?_⟩, ?_, ?_, ?_⟩ <;> simp [crawl_step, hq]
  | cons current rest =>
    have hcur : current ∉ s.visited := hdisj current (by rw [hq]; exact List.mem_cons_self _ _)
    have hspec := process_page_not_mem_spec env s.visited current hcur
    have hndr : rest.Nodup := by rw [hq] at hnd; exact hnd.of_cons
    have hcr : current ∉ rest := by rw [hq] at hnd; exact (List.nodup_cons.1 hnd).1
    have hrest : ∀ x ∈ rest, x ∉ (process_page env s.visited current).visited := by
      intro x hx
      rw [hspec.1, List.mem_cons]
      rintro (h | h)
      · subst h; exact hcr hx
      · exact hdisj x (by rw [hq]; exact List.mem_cons_of_mem _ hx) h
    have henq := enqueue_links_inv (process_page env s.visited current).visited
      (process_page env s.visited current).children rest hndr hrest
    refine ⟨⟨?_, ?_⟩, ?_, ?_, ?_⟩
    · simpa [crawl_step, hq] using henq.1
    · simpa [crawl_step, hq] using henq.2
    · intro x hx
      simp only [crawl_step, hq] at hx ⊢
      rw [hspec.2, List.mem_singleton] at hx
      subst hx
      exact ⟨hcur, by rw [hspec.1]; exact List.mem_cons_self _ _⟩
    · intro x hx
      simp only [crawl_step, hq]
      rw [hspec.1]
      exact List.mem_cons_of_mem _ hx
    · simp only [crawl_step, hq]
      rw [hspec.2]
      exact List.nodup_singleton _

/-- Invariant of the whole crawl run: the state invariant holds, the fetch
log has no duplicates, and every fetched URL has been marked visited. -/
theorem crawl_run_inv (env : Env) (n : Nat) :
    StateInv (crawl_run env n).1 ∧
    ((crawl_run env n).2).Nodup ∧
    (∀ x ∈ (crawl_run env n).2, x ∈ (crawl_run env n).1.visited) := by
  induction n with
  | zero =>
    refine ⟨⟨?_, ?_⟩, ?_, ?_⟩ <;> simp [crawl_run, initState, StateInv]
  | succ n ih =>
    obtain ⟨hsi, hlognd, hlogsub⟩ := ih
    have hstep := crawl_step_inv env (crawl_run env n).1 hsi
    have hrun : crawl_run env (n + 1)
        = ((crawl_step env (crawl_run env n).1).1,
           (crawl_run env n).2 ++ (crawl_step env (crawl_run env n).1).2) := rfl
    refine ⟨?_, ?_, ?_⟩
    · rw [hrun]; exact hstep.1
    · rw [hrun]
      simp only [List.nodup_append]
      refine ⟨hlognd, hstep.2.2.2, ?_⟩
      intro x hx hx2
      exact (hstep.2.1 x hx2).1 (hlogsub x hx)
    · rw [hrun]
      intro x hx
      rcases List.mem_append.1 hx with hx | hx
      · exact hstep.2.2.1 x (hlogsub x hx)
      · exact (hstep.2.1 x hx).2

/-!
Helper lemmas about `extract_links`.
-/

/-- One step of the link loop only ever appends URLs that start with
`base_url`. -/
theorem link_step_sound (urljoin : String → String → String) (cu : String)
    (acc : List String) (t : Node) :
    ∀ y ∈ link_step urljoin cu acc t, y ∈ acc ∨ pyStartswith y base_url = true := by
  intro y hy
  unfold link_step at hy
  cases hh : getAttr (attrsOf t) "href" with
  | none => rw [hh] at hy; exact Or.inl hy
  | some href =>
    rw [hh] at hy
    dsimp only at hy
    by_cases hskip : pyStartswith href "#" = true ∨ pyStartswith href "javascript:" = true ∨
        pyStartswith href "mailto:" = true
    · rw [if_pos hskip] at hy; exact Or.inl hy
    · rw [if_neg hskip] at hy
      by_cases hs : pyStartswith (urljoin cu href) base_url = true
      · simp only [hs, if_true] at hy
        rcases List.mem_append.1 hy with h | h
        · exact Or.inl h
        · rw [List.mem_singleton] at h; subst h; exact Or.inr hs
      · simp only [hs, if_false] at hy
        exact Or.inl hy

/-- The link loop preserves "every accumulated URL starts with `base_url`". -/
theorem foldl_link_step_sound (urljoin : String → String → String) (cu : String)
    (tags : List Node) :
    ∀ acc : List String, (∀ x ∈ acc, pyStartswith x base_url = true) →
      ∀ x ∈ tags.foldl (link_step urljoin cu) acc, pyStartswith x base_url = true := by
  induction tags with
  | nil => intro acc hacc x hx; rw [List.foldl_nil] at hx; exact hacc x hx
  | cons t ts ih =>
    intro acc hacc x hx
    rw [List.foldl_cons] at hx
    refine ih _ ?_ x hx
    intro y hy
    rcases link_step_sound urljoin cu acc t y hy with h | h
    · exact hacc y h
    · exact h

/-!
Helper lemmas about `clean_filename`.
-/

/-- Characters output by the run-collapsing pass are never whitespace or
dash, and never invalid provided the input had no invalid characters
(the only character it introduces is an underscore). -/
theorem collapseRuns_chars : ∀ (cs : List Char) (b : Bool),
    (∀ c ∈ cs, isInvalidFileChar c = false) →
    ∀ c ∈ collapseRuns b cs, isInvalidFileChar c = false ∧ isSpaceOrDash c = false := by
  intro cs
  induction cs with
  | nil => intro b _ c hc; simp [collapseRuns] at hc
  | cons a rest ih =>
    intro b hcs c hc
    simp only [collapseRuns] at hc
    by_cases ha : isSpaceOrDash a = true
    · rw [if_pos ha] at hc
      cases b with
      | true =>
        rw [if_pos rfl] at hc
        exact ih true (fun x hx => hcs x (List.mem_cons_of_mem _ hx)) c hc
      | false =>
        rw [if_neg (by simp)] at hc
        rcases List.mem_cons.1 hc with h | h
        · subst h; exact ⟨by decide, by decide⟩
        · exact ih true (fun x hx => hcs x (List.mem_cons_of_mem _ hx)) c h
    · rw [if_neg ha] at hc
      rcases List.mem_cons.1 hc with h | h
      · rw [h]
        exact ⟨hcs a (List.mem_cons_self _ _), by simpa using ha⟩
      · exact ih false (fun x hx => hcs x (List.mem_cons_of_mem _ hx)) c h

/-- The sanitized stem never exceeds 100 characters. -/
theorem stemOf_le (text : String) : (stemOf text).length ≤ 100 := by
  simp only [stemOf]
  split
  · simp [List.length_take]
  · omega

/-- Characters of the sanitized stem are never invalid, whitespace or dash. -/
theorem stemOf_chars (text : String) :
    ∀ c ∈ stemOf text, isInvalidFileChar c = false ∧ isSpaceOrDash c = false := by
  intro c hc
  have hfilter : ∀ x ∈ text.data.filter (fun c => ¬ isInvalidFileChar c),
      isInvalidFileChar x = false := by
    intro x hx
    simpa using List.of_mem_filter hx
  have hcol := collapseRuns_chars _ false hfilter
  have hmem : c ∈ collapseRuns false (text.data.filter (fun c => ¬ isInvalidFileChar c)) := by
    simp only [stemOf] at hc
    split at hc
    · exact List.take_subset _ _ hc
    · exact hc
  exact hcol c hmem

/-!
Claim theorems.
-/

/-- C3: the classifier marks a page as a content page exactly when the
count of substantial paragraphs in the main-content region (or the whole
document when that region is absent) is at least 2 and the summed
character length of their text exceeds 150; a page whose main-content
region contains exactly 2 link-free paragraphs of 80 characters each
classifies as content, and a page with only 1 such paragraph does not. -/
theorem classifier_dual_threshold :
    (∀ soup : List Node,
        has_significant_text soup = true ↔
          2 ≤ (content_paragraphs soup).length ∧
          150 < ((content_paragraphs soup).map (fun p => (nodeText p).length)).sum) ∧
    has_significant_text soupTwoParas = true ∧
    has_significant_text soupOnePara = false := by
  refine ⟨fun soup => ?_, by decide, by decide⟩
  simp [has_significant_text]

/-- C7: when the extracted body is blank after trimming,
`save_content_to_file` writes no file and surfaces no error, for every
title, URL and timestamp. -/
theorem blank_content_save_skipped (title content url now : String)
    (h : pyStrip content = "") :
    save_content_to_file title content url now = none := by
  simp [save_content_to_file, h]

/-- Witness for C7 at a whitespace-only body. -/
theorem blank_content_save_skipped_witness :
    save_content_to_file "Some Title" "  \n " "https://www.gov.za/x" "2026-01-01" = none :=
  blank_content_save_skipped "Some Title" "  \n " "https://www.gov.za/x" "2026-01-01" (by decide)

/-- C8: a paragraph with non-empty trimmed text is substantial only if it
has no hyperlink or its text length exceeds its hyperlink's anchor text
length by more than 10; in particular a paragraph whose text length is
within 10 of its first anchor's text length is excluded from the
substantial-paragraph count. -/
theorem substantial_excludes_link_captions (p : Node) :
    (∀ a, nodeFind isAnchor p = some a →
        (nodeText p).length ≤ (nodeText a).length + 10 →
        isSubstantial p = false) ∧
    (isSubstantial p = true →
        pyStrip (nodeText p) ≠ "" ∧
        (nodeFind isAnchor p = none ∨
         ∃ a, nodeFind isAnchor p = some a ∧
           (nodeText a).length + 10 < (nodeText p).length)) := by
  constructor
  · intro a ha hle
    have hlt : ¬ ((nodeText a).length + 10 < (nodeText p).length) := by omega
    simp [isSubstantial, ha, hlt]
  · intro h
    simp only [isSubstantial, Bool.and_eq_true, decide_eq_true_eq] at h
    cases hfind : nodeFind isAnchor p with
    | none => exact ⟨h.1, Or.inl rfl⟩
    | some a =>
      rw [hfind] at h
      exact ⟨h.1, Or.inr ⟨a, rfl, by simpa using h.2⟩⟩

/-- Witness for C8: a paragraph consisting solely of an anchor captioned
"Read more" (anchor text length equal to the paragraph text length) is not
substantial. -/
theorem substantial_excludes_link_captions_witness :
    isSubstantial readMorePara = false :=
  (substantial_excludes_link_captions readMorePara).1 readMoreAnchor rfl (by decide)

set_option maxRecDepth 20000 in
/-- C9: `clean_filename` is a pure function whose output is the sanitized
stem (illegal characters stripped, whitespace-and-dash runs collapsed to
single underscores, truncated to 100 characters) followed by the fixed
extension ".txt"; the stem never exceeds 100 characters, and a
500-character title yields a stem of exactly 100 characters. -/
theorem clean_filename_spec :
    (∀ text : String,
        clean_filename text = String.mk (stemOf text) ++ ".txt" ∧
        (stemOf text).length ≤ 100 ∧
        ∀ c, c ∈ stemOf text → isInvalidFileChar c = false ∧ isSpaceOrDash c = false) ∧
    clean_filename ⟨List.replicate 500 'a'⟩ = String.mk (List.replicate 100 'a') ++ ".txt" ∧
    (stemOf ⟨List.replicate 500 'a'⟩).length = 100 ∧
    (⟨List.replicate 500 'a'⟩ : String).length = 500 ∧
    clean_filename "a  - b" = "a_b.txt" :=
  ⟨fun text => ⟨rfl, stemOf_le text, stemOf_chars text⟩,
   by decide, by decide, by decide, by decide⟩

/-- Witness for C9: the stem of "ab" contains 'b', which is neither an
illegal character nor whitespace or dash. -/
theorem clean_filename_spec_witness :
    isInvalidFileChar 'b' = false ∧ isSpaceOrDash 'b' = false :=
  (clean_filename_spec.1 "ab").2.2 'b' (by decide)

/-- C10: the substantiality test compares a linked paragraph only against
its FIRST hyperlink, using untrimmed text lengths: `paraTwoAnchors` (53
characters of text, 50 of them the text of its second anchor) is
substantial because only its 2-character first anchor is consulted, even
though the comparison against its second anchor would fail; and
`paraTrailingSpace` is substantial only thanks to untrimmed lengths — the
trimmed comparison would fail. -/
theorem substantial_first_anchor_untrimmed :
    nodeFind isAnchor paraTwoAnchors = some shortAnchor ∧
    isSubstantial paraTwoAnchors = true ∧
    (nodeText paraTwoAnchors).length = 53 ∧
    (nodeText longAnchor).length = 50 ∧
    ¬ ((nodeText longAnchor).length + 10 < (nodeText paraTwoAnchors).length) ∧
    isSubstantial paraTrailingSpace = true ∧
    ¬ ((pyStrip (nodeText tenCharAnchor)).length + 10 <
        (pyStrip (nodeText paraTrailingSpace)).length) :=
  ⟨rfl, by decide, by decide, by decide, by decide, by decide, by decide⟩

/-- C1: `process_page` on an already-visited URL is a pure no-op returning
the empty child sequence with no fetch; on an unvisited URL it adds the
URL to the visited set (so the fetch, parse and link computation all see
it as visited) and fetches it exactly once; consequently, across any
number of crawl-loop steps in any environment, the fetch log never
contains a URL twice. -/
theorem visited_marked_before_fetch_no_refetch (env : Env) :
    (∀ (v : List String) (u : String), u ∈ v →
        process_page env v u = { visited := v, children := [], fetched := [], saved := none }) ∧
    (∀ (v : List String) (u : String), u ∉ v →
        (process_page env v u).visited = u :: v ∧
        (process_page env v u).fetched = [u]) ∧
    (∀ n : Nat, ((crawl_run env n).2).Nodup) :=
  ⟨fun v u h => process_page_mem env v u h,
   fun v u h => process_page_not_mem_spec env v u h,
   fun n => (crawl_run_inv env n).2.1⟩

/-- Witness for C1: processing the seed URL when already visited is a
no-op. -/
theorem visited_marked_before_fetch_no_refetch_witness :
    process_page testEnv [seed_url] seed_url
      = { visited := [seed_url], children := [], fetched := [], saved := none } :=
  (visited_marked_before_fetch_no_refetch testEnv).1 [seed_url] seed_url
    (List.mem_singleton.2 rfl)

/-- C2: at every loop iteration boundary, for every environment, the
frontier queue never contains the same URL twice, and the visited set and
the frontier are disjoint. -/
theorem frontier_nodup_disjoint (env : Env) (n : Nat) :
    ((crawl_run env n).1.queue).Nodup ∧
    ∀ u ∈ (crawl_run env n).1.queue, u ∉ (crawl_run env n).1.visited := by
  have h := (crawl_run_inv env n).1
  unfold StateInv at h
  exact h

/-- Witness for C2: after zero steps the queue is duplicate-free and the
seed URL, though queued, is not yet visited. -/
theorem frontier_nodup_disjoint_witness :
    ((crawl_run testEnv 0).1.queue).Nodup ∧
    seed_url ∉ (crawl_run testEnv 0).1.visited :=
  ⟨(frontier_nodup_disjoint testEnv 0).1,
   (frontier_nodup_disjoint testEnv 0).2 seed_url (by decide)⟩

/-- Counterexample for C4: the extractor keeps every resolved link whose
TEXT starts with `base_url`, which is weaker than sharing its origin: a
link to `https://www.gov.za.evil/x` — whose origin is
`https://www.gov.za.evil`, not the base origin `https://www.gov.za` — is
returned. -/
theorem extract_links_foreign_origin :
    extract_links urljoinModel soupEvilLink "https://www.gov.za/page"
      = ["https://www.gov.za.evil/x"] ∧
    urlOrigin "https://www.gov.za.evil/x" = "https://www.gov.za.evil" ∧
    urlOrigin base_url = base_url ∧
    ("https://www.gov.za.evil" : String) ≠ base_url :=
  ⟨rfl, rfl, rfl, by decide⟩

/-- C4 (amended): every URL returned by the Link Extractor starts with the
configured base URL string `https://www.gov.za` — any resolved link not
having that prefix is discarded — but a returned URL may live on another
origin whose text begins with that string. -/
theorem extract_links_only_base_prefixed (urljoin : String → String → String)
    (soup : List Node) (current_url u : String)
    (hu : u ∈ extract_links urljoin soup current_url) :
    pyStartswith u base_url = true := by
  unfold extract_links at hu
  cases hd : findTargetDiv soup with
  | none => rw [hd] at hu; simp at hu
  | some d =>
    rw [hd] at hu
    dsimp only at hu
    exact foldl_link_step_sound urljoin current_url _ [] (by intro x hx; simp at hx) u hu

/-- Witness for C4 (amended): the kept foreign-origin link does start with
the base URL string. -/
theorem extract_links_only_base_prefixed_witness :
    pyStartswith "https://www.gov.za.evil/x" base_url = true :=
  extract_links_only_base_prefixed urljoinModel soupEvilLink "https://www.gov.za/page"
    "https://www.gov.za.evil/x" (by decide)

/-- Counterexample for C5: on an unexpected top-level failure `main`
catches the exception, prints the error and returns normally, so the
process exits with code 0, not a non-zero code; and on manual interruption
the printed lines are the two startup lines plus the fixed interruption
message — no visited-count summary is printed. -/
theorem main_failure_exits_zero :
    (main_run "/work/scraped_content" (CrawlOutcome.failed "boom")).2 = 0 ∧
    (main_run "/work/scraped_content" CrawlOutcome.interrupted).1 =
      ["Starting web crawl of South African government services...",
       "Content will be saved to: /work/scraped_content",
       "\nCrawl interrupted by user."] :=
  ⟨rfl, rfl⟩

/-- C5 (amended): on manual interruption the entry point prints a fixed
interruption message (without a visited-count summary) and exits zero; on
any other unexpected top-level failure it prints the error and likewise
exits zero; the visited-count summary is printed only on normal
completion. -/
theorem main_handlers_exit_zero (absdir msg : String) (n : Nat) :
    main_run absdir CrawlOutcome.interrupted =
      (startupLines absdir ++ ["\nCrawl interrupted by user."], 0) ∧
    main_run absdir (CrawlOutcome.failed msg) =
      (startupLines absdir ++ ["Crawl failed with error: " ++ msg], 0) ∧
    main_run absdir (CrawlOutcome.completed n) =
      (startupLines absdir ++ ["Crawl completed. Processed " ++ toString n ++ " URLs."], 0) :=
  ⟨rfl, rfl, rfl⟩

/-- C6: whenever the fetched page of a URL is classified as a content
page, `process_page` returns the empty child sequence, in every
environment — whether the save writes a file, is skipped for a blank
body, or raises (`Env.writeFails`) is irrelevant. -/
theorem content_page_is_terminal (env : Env) (v : List String) (url : String)
    (status : Nat) (soup : List Node)
    (hf : env.fetch url = some (status, soup)) (hs : status = 200)
    (hc : has_significant_text soup = true) :
    (process_page env v url).children = [] := by
  by_cases h : url ∈ v
  · simp [process_page, h]
  · subst hs
    simp [process_page, h, hf, hc]

/-- Witness for C6: fetching the two-paragraph content page yields no
children. -/
theorem content_page_is_terminal_witness :
    (process_page contentEnv [] seed_url).children = [] :=
  content_page_is_terminal contentEnv [] seed_url 200 soupTwoParas rfl rfl (by decide)
